import Mathlib

/-!
Shallow embedding of the CareWell server (src/server.js): the presence
registry and event relay, OTP issuance and verification, contact adding,
group-message fan-out and the exercise-completion notification fan-out,
together with theorems settling the frozen claims about them.

All definitions are translated from src/server.js; line references point
into that file.
-/

namespace CareWell

/-! ### A model of the JavaScript Map (insertion-ordered association list)

`onlineUsers` in server.js:118 is a JS `Map`.  `Map.set` overwrites the value
in place when the key is present (keeping the key's position), `Map.delete`
removes the entry, `Map.get` returns the value or `undefined`.  The same
model serves the SQLite tables keyed by a PRIMARY KEY column (`otps.phone`),
where `INSERT OR REPLACE` has the same overwrite semantics. -/

def keysOf {K V : Type} (m : List (K × V)) : List K := m.map Prod.fst

def mapSet {K V : Type} [DecidableEq K] : List (K × V) → K → V → List (K × V)
  | [], k, v => [(k, v)]
  | kv :: rest, k, v => if k = kv.1 then (k, v) :: rest else kv :: mapSet rest k v

def mapGet {K V : Type} [DecidableEq K] : List (K × V) → K → Option V
  | [], _ => none
  | kv :: rest, k => if k = kv.1 then some kv.2 else mapGet rest k

def mapDel {K V : Type} [DecidableEq K] : List (K × V) → K → List (K × V)
  | [], _ => []
  | kv :: rest, k => if k = kv.1 then rest else kv :: mapDel rest k

/-! ### Presence registry and event relay (server.js:117-118, 428-450)

`io.on('connection')` stores `onlineUsers.set(socket.userId, { socketId, role })`;
the `disconnect` handler runs `onlineUsers.delete(socket.userId)`: it is keyed
by the user id captured in the socket, never by the socket id of the closing
connection.  `emitToUser` looks the user up and emits to the stored socket id
if present, silently doing nothing otherwise. -/

inductive Role
  | elderly
  | family
  deriving DecidableEq

structure PresenceEntry where
  socketId : Nat
  role : Role
  deriving DecidableEq

abbrev Registry : Type := List (Nat × PresenceEntry)

inductive SocketEvent
  | connect (userId socketId : Nat) (role : Role)
  | disconnect (userId socketId : Nat)
  deriving DecidableEq

/-- One socket lifecycle event applied to `onlineUsers` (server.js:437-445).
The disconnect branch ignores which socket is closing: the handler deletes
the entry of `socket.userId` unconditionally. -/
def stepSocket (reg : Registry) : SocketEvent → Registry
  | SocketEvent.connect u s r => mapSet reg u ⟨s, r⟩
  | SocketEvent.disconnect u _ => mapDel reg u

def runSocket (reg : Registry) (evs : List SocketEvent) : Registry :=
  evs.foldl stepSocket reg

/-- `emitToUser` (server.js:447-450): returns the (socketId, event, payload)
emission performed, or `none` when the user is absent from the registry. -/
def emitToUser {P : Type} (reg : Registry) (userId : Nat) (event : String) (payload : P) :
    Option (Nat × String × P) :=
  match mapGet reg userId with
  | some t => some (t.socketId, event, payload)
  | none => none

/-- Relay system state: the registry together with the log of emissions
actually performed.  Payloads are abstracted to `Nat` tokens here. -/
structure RelayState where
  reg : Registry
  log : List (Nat × String × Nat)
  deriving DecidableEq

inductive Action
  | sock (ev : SocketEvent)
  | emit (userId : Nat) (event : String) (payload : Nat)
  deriving DecidableEq

def stepAction (st : RelayState) : Action → RelayState
  | Action.sock ev => ⟨stepSocket st.reg ev, st.log⟩
  | Action.emit u e p =>
    match emitToUser st.reg u e p with
    | some d => ⟨st.reg, st.log ++ [d]⟩
    | none => st

def runActions (st : RelayState) (acts : List Action) : RelayState :=
  acts.foldl stepAction st

/-! ### Users, OTP issuance and verification (server.js:136-209)

The `otps` table has `phone` as PRIMARY KEY; `users.phone` is UNIQUE.
JS falsy checks on request-body strings (`if (!phone || !code)`) are modelled
as emptiness tests on `String`. -/

structure UserRow where
  id : Nat
  first_name : String
  last_name : String
  phone : String
  role : Role
  deriving DecidableEq

structure OtpRow where
  code : String
  expires_at : Int
  deriving DecidableEq

inductive VerifyResult
  | missing_fields
  | otp_not_found
  | otp_invalid
  | otp_expired
  | user_not_found
  | ok (user : UserRow)
  deriving DecidableEq

/-- Authentication-relevant state: the `otps` table (keyed by phone), the
`users` table and the request's session user. -/
structure AuthState where
  otps : List (String × OtpRow)
  users : List UserRow
  session : Option UserRow
  deriving DecidableEq

/-- `SELECT * FROM users WHERE phone = ?` (users.phone is UNIQUE). -/
def findUserByPhone (users : List UserRow) (phone : String) : Option UserRow :=
  users.find? (fun u => u.phone = phone)

/-- POST /api/auth/verify-otp (server.js:168-186).  Looks up the OTP row for
the phone, rejects on absence, code mismatch, or `row.expires_at < now`;
otherwise looks up the user, stores it in the session, deletes the OTP row
and answers ok. -/
def verifyOtp (st : AuthState) (phone code : String) (now : Int) :
    VerifyResult × AuthState :=
  if phone = "" ∨ code = "" then (VerifyResult.missing_fields, st)
  else
    match mapGet st.otps phone with
    | none => (VerifyResult.otp_not_found, st)
    | some row =>
      if row.code ≠ code then (VerifyResult.otp_invalid, st)
      else if row.expires_at < now then (VerifyResult.otp_expired, st)
      else
        match findUserByPhone st.users phone with
        | none => (VerifyResult.user_not_found, st)
        | some u =>
          (VerifyResult.ok u, { otps := mapDel st.otps phone, users := st.users, session := some u })

/-- `generateAndStoreOtp` (server.js:202-209).  The code is
`Math.floor(100000 + Math.random() * 900000)` rendered as a string, which is
`100000 + rand` for `rand = Math.floor(Math.random() * 900000)` (a natural
number below 900000); the expiry is `Date.now() + 1000 * 60 * 5`; the row is
written with `INSERT OR REPLACE` into a table keyed by phone.  Returns the
updated table and the code handed to the callback. -/
def generateAndStoreOtp (otps : List (String × OtpRow)) (phone : String) (rand : Nat)
    (now : Int) : List (String × OtpRow) × String :=
  let code := toString (100000 + rand)
  let expires := now + 1000 * 60 * 5
  (mapSet otps phone ⟨code, expires⟩, code)

/-! ### Contacts (server.js:198-200, 222-247) -/

/-- `INSERT OR IGNORE INTO contacts (user_id, contact_user_id)`: the table has
UNIQUE(user_id, contact_user_id), so an existing pair is left untouched. -/
def insertOrIgnorePair (cs : List (Nat × Nat)) (p : Nat × Nat) : List (Nat × Nat) :=
  if p ∈ cs then cs else cs ++ [p]

/-- `ensureSettings` (server.js:198-200): `INSERT OR IGNORE INTO settings
(user_id)`, modelled on the set of user ids having a settings row. -/
def ensureSettingsRow (ks : List Nat) (u : Nat) : List Nat :=
  if u ∈ ks then ks else ks ++ [u]

inductive AddContactResult
  | missing_phone
  | user_not_found
  | cannot_add_self
  | ok
  deriving DecidableEq

structure ContactsState where
  users : List UserRow
  contacts : List (Nat × Nat)
  settingsKeys : List Nat
  deriving DecidableEq

/-- POST /api/contacts/add (server.js:222-247): finds the other user by
phone, rejects self-addition, ensures settings rows for both users, then
inserts both directed contact edges with `INSERT OR IGNORE`. -/
def addContact (st : ContactsState) (userId : Nat) (phone : String) :
    AddContactResult × ContactsState :=
  if phone = "" then (AddContactResult.missing_phone, st)
  else
    match findUserByPhone st.users phone with
    | none => (AddContactResult.user_not_found, st)
    | some row =>
      if row.id = userId then (AddContactResult.cannot_add_self, st)
      else
        (AddContactResult.ok,
          { users := st.users,
            contacts :=
              insertOrIgnorePair (insertOrIgnorePair st.contacts (userId, row.id)) (row.id, userId),
            settingsKeys := ensureSettingsRow (ensureSettingsRow st.settingsKeys userId) row.id })

/-! ### Messages: group branch of POST /api/messages (server.js:261-289) -/

structure MessageRow where
  from_user_id : Nat
  to_user_id : Option Nat
  is_group : Bool
  content : String
  deriving DecidableEq

structure MessagePayload where
  fromUserId : Nat
  toUserId : Nat
  content : String
  isGroup : Bool
  deriving DecidableEq

/-- `SELECT contact_user_id AS id FROM contacts WHERE user_id = ?`
(server.js:269). -/
def contactIdsOf (contacts : List (Nat × Nat)) (u : Nat) : List Nat :=
  (contacts.filter (fun c => c.1 = u)).map Prod.snd

/-- The group branch of POST /api/messages (server.js:267-280), reached when
`content` is non-empty and `isGroup` is truthy: one message row with the
group flag is inserted per contact of the sender, then `emitToUser` is called
once per recipient.  Returns the inserted rows and the list of emissions that
actually happened, each tagged with the recipient's user id. -/
def postGroupMessage (reg : Registry) (contacts : List (Nat × Nat)) (fromUserId : Nat)
    (content : String) :
    List MessageRow × List (Nat × Nat × String × MessagePayload) :=
  let recipients := contactIdsOf contacts fromUserId
  let rows := recipients.map (fun rid =>
    { from_user_id := fromUserId, to_user_id := some rid, is_group := true,
      content := content })
  let delivered := recipients.filterMap (fun rid =>
    (emitToUser reg rid "message:new"
      { fromUserId := fromUserId, toUserId := rid, content := content,
        isGroup := true : MessagePayload }).map (fun d => (rid, d)))
  (rows, delivered)

/-! ### Exercise logging and family fan-out (server.js:292-317)

`duration` arrives as a JS number, modelled as a rational.  `fatigueLevel ||
null` and `difficulty || null` are JS falsy coercions: numeric 0 and the
empty string become null. -/

structure ExerciseBody where
  exerciseType : String
  duration : ℚ
  fatigueLevel : Option Int
  difficulty : Option String

/-- JS `v || null` on a nullable number: 0 is falsy and becomes null. -/
def jsOrNullInt (v : Option Int) : Option Int :=
  match v with
  | some n => if n = 0 then none else some n
  | none => none

/-- JS `v || null` on a nullable string: the empty string is falsy. -/
def jsOrNullStr (v : Option String) : Option String :=
  match v with
  | some s => if s = "" then none else some s
  | none => none

structure ExerciseRow where
  user_id : Nat
  exercise_type : String
  duration_min : Int
  fatigue_level : Option Int
  difficulty : Option String
  deriving DecidableEq

/-- The row inserted by server.js:297: duration is stored as
`Math.max(0, Math.floor(duration))`, fatigue as `fatigueLevel || null`,
difficulty as `difficulty || null`. -/
def exerciseRow (userId : Nat) (body : ExerciseBody) : ExerciseRow :=
  { user_id := userId,
    exercise_type := body.exerciseType,
    duration_min := max 0 ⌊body.duration⌋,
    fatigue_level := jsOrNullInt body.fatigueLevel,
    difficulty := jsOrNullStr body.difficulty }

structure ExercisePayload where
  fromUserId : Nat
  exerciseType : String
  duration : Int
  fatigueLevel : Option Int
  deriving DecidableEq

/-- The notification payload built at server.js:303: duration is
`Math.floor(duration)` (no clamping), fatigue is `fatigueLevel || null`;
`notifyFamilyOfExercise` adds `fromUserId` (server.js:315). -/
def exercisePayload (userId : Nat) (body : ExerciseBody) : ExercisePayload :=
  { fromUserId := userId,
    exerciseType := body.exerciseType,
    duration := ⌊body.duration⌋,
    fatigueLevel := jsOrNullInt body.fatigueLevel }

/-- Result of reading `family_notify_parent_done` from the settings table
(server.js:301-302): a query error, a missing row, or the flag's value. -/
inductive SettingsRead
  | err
  | missing
  | row (family_notify_parent_done : Int)
  deriving DecidableEq

/-- `notifyEnabled = !sErr && sRow && sRow.family_notify_parent_done === 1`
(server.js:302). -/
def notifyEnabled : SettingsRead → Bool
  | SettingsRead.row v => v = 1
  | _ => false

/-- `notifyFamilyOfExercise` (server.js:310-317): one `emitToUser` call per
contact of the elderly user whose role is family.  `contacts` is the result
of the join on the contacts and users tables, as pairs (contact user id,
contact role). -/
def notifyFamilyOfExercise (contacts : List (Nat × Role)) (payload : ExercisePayload) :
    List (Nat × String × ExercisePayload) :=
  (contacts.filter (fun c => c.2 = Role.family)).map
    (fun c => (c.1, "exercise:completed", payload))

/-- The relay calls issued by the exercise handler (server.js:300-304): only
an elderly session with a successfully read settings row whose flag is 1
triggers the family fan-out. -/
def exercisePushes (userId : Nat) (role : Role) (body : ExerciseBody)
    (settings : SettingsRead) (contacts : List (Nat × Role)) :
    List (Nat × String × ExercisePayload) :=
  if role = Role.elderly ∧ notifyEnabled settings = true then
    notifyFamilyOfExercise contacts (exercisePayload userId body)
  else []

structure ExerciseResult where
  id : Nat
  row : ExerciseRow
  pushes : List (Nat × String × ExercisePayload)
  deriving DecidableEq

/-- POST /api/exercise (server.js:292-308).  `none` models the 400
missing_fields response (empty exerciseType; `duration` is a number by
typing here).  On a successful insert the handler answers
`{ ok: true, id: lastID }` regardless of the outcome of the settings read,
which only gates the fan-out. -/
def postExercise (userId : Nat) (role : Role) (body : ExerciseBody)
    (settings : SettingsRead) (contacts : List (Nat × Role)) (lastID : Nat) :
    Option ExerciseResult :=
  if body.exerciseType = "" then none
  else some
    { id := lastID,
      row := exerciseRow userId body,
      pushes := exercisePushes userId role body settings contacts }

/-! ## Lemmas about the Map model -/

theorem mapSet_cons_pos {K V : Type} [DecidableEq K] (kv : K × V) (rest : List (K × V))
    (k : K) (v : V) (h : k = kv.1) : mapSet (kv :: rest) k v = (k, v) :: rest := by
  rw [mapSet, if_pos h]

theorem mapSet_cons_neg {K V : Type} [DecidableEq K] (kv : K × V) (rest : List (K × V))
    (k : K) (v : V) (h : ¬k = kv.1) : mapSet (kv :: rest) k v = kv :: mapSet rest k v := by
  rw [mapSet, if_neg h]

theorem mapGet_cons {K V : Type} [DecidableEq K] (kv : K × V) (rest : List (K × V)) (k : K) :
    mapGet (kv :: rest) k = if k = kv.1 then some kv.2 else mapGet rest k := by
  rw [mapGet]

theorem mapDel_cons_pos {K V : Type} [DecidableEq K] (kv : K × V) (rest : List (K × V))
    (k : K) (h : k = kv.1) : mapDel (kv :: rest) k = rest := by
  rw [mapDel, if_pos h]

theorem mapDel_cons_neg {K V : Type} [DecidableEq K] (kv : K × V) (rest : List (K × V))
    (k : K) (h : ¬k = kv.1) : mapDel (kv :: rest) k = kv :: mapDel rest k := by
  rw [mapDel, if_neg h]

theorem mapGet_mapSet_self {K V : Type} [DecidableEq K] (m : List (K × V)) (k : K) (v : V) :
    mapGet (mapSet m k v) k = some v := by
  induction m with
  | nil => rw [mapSet, mapGet, if_pos rfl]
  | cons kv rest ih =>
    by_cases h : k = kv.1
    · rw [mapSet_cons_pos kv rest k v h, mapGet_cons, if_pos rfl]
    · rw [mapSet_cons_neg kv rest k v h, mapGet_cons, if_neg h, ih]

theorem mem_keysOf_mapSet {K V : Type} [DecidableEq K] (m : List (K × V)) (k a : K) (v : V) :
    a ∈ keysOf (mapSet m k v) ↔ a ∈ keysOf m ∨ a = k := by
  induction m with
  | nil => simp [mapSet, keysOf]
  | cons kv rest ih =>
    simp only [keysOf, List.map_cons, List.mem_cons] at ih ⊢
    by_cases h : k = kv.1
    · rw [mapSet_cons_pos kv rest k v h, List.map_cons, List.mem_cons]
      subst h
      tauto
    · rw [mapSet_cons_neg kv rest k v h, List.map_cons, List.mem_cons, ih]
      tauto

theorem nodup_keysOf_mapSet {K V : Type} [DecidableEq K] (m : List (K × V)) (k : K) (v : V)
    (hnd : (keysOf m).Nodup) : (keysOf (mapSet m k v)).Nodup := by
  induction m with
  | nil => simp [mapSet, keysOf]
  | cons kv rest ih =>
    simp only [keysOf, List.map_cons, List.nodup_cons] at hnd
    by_cases h : k = kv.1
    · rw [mapSet_cons_pos kv rest k v h]
      subst h
      exact List.nodup_cons.mpr ⟨hnd.1, hnd.2⟩
    · rw [mapSet_cons_neg kv rest k v h]
      simp only [keysOf, List.map_cons, List.nodup_cons]
      refine ⟨fun hmem => ?_, ih hnd.2⟩
      rcases (mem_keysOf_mapSet rest k kv.1 v).mp hmem with hmem2 | heq
      · exact hnd.1 hmem2
      · exact h heq.symm

theorem mem_keysOf_mapDel {K V : Type} [DecidableEq K] (m : List (K × V)) (k a : K)
    (h : a ∈ keysOf (mapDel m k)) : a ∈ keysOf m := by
  induction m with
  | nil => simp [mapDel, keysOf] at h
  | cons kv rest ih =>
    by_cases hk : k = kv.1
    · rw [mapDel_cons_pos kv rest k hk] at h
      simp only [keysOf, List.map_cons, List.mem_cons]
      exact Or.inr h
    · rw [mapDel_cons_neg kv rest k hk] at h
      simp only [keysOf, List.map_cons, List.mem_cons] at h ⊢
      rcases h with h | h
      · exact Or.inl h
      · exact Or.inr (ih h)

theorem nodup_keysOf_mapDel {K V : Type} [DecidableEq K] (m : List (K × V)) (k : K)
    (hnd : (keysOf m).Nodup) : (keysOf (mapDel m k)).Nodup := by
  induction m with
  | nil => simp [mapDel, keysOf]
  | cons kv rest ih =>
    simp only [keysOf, List.map_cons, List.nodup_cons] at hnd
    by_cases hk : k = kv.1
    · rw [mapDel_cons_pos kv rest k hk]
      exact hnd.2
    · rw [mapDel_cons_neg kv rest k hk]
      simp only [keysOf, List.map_cons, List.nodup_cons]
      exact ⟨fun hmem => hnd.1 (mem_keysOf_mapDel rest k kv.1 hmem), ih hnd.2⟩

theorem mapGet_eq_none_of_not_mem {K V : Type} [DecidableEq K] (m : List (K × V)) (k : K)
    (h : k ∉ keysOf m) : mapGet m k = none := by
  induction m with
  | nil => rw [mapGet]
  | cons kv rest ih =>
    simp only [keysOf, List.map_cons, List.mem_cons, not_or] at h
    rw [mapGet_cons, if_neg h.1, ih h.2]

theorem mapGet_mapDel_self {K V : Type} [DecidableEq K] (m : List (K × V)) (k : K)
    (hnd : (keysOf m).Nodup) : mapGet (mapDel m k) k = none := by
  induction m with
  | nil => rw [mapDel, mapGet]
  | cons kv rest ih =>
    simp only [keysOf, List.map_cons, List.nodup_cons] at hnd
    by_cases hk : k = kv.1
    · rw [mapDel_cons_pos kv rest k hk, hk]
      exact mapGet_eq_none_of_not_mem rest kv.1 hnd.1
    · rw [mapDel_cons_neg kv rest k hk, mapGet_cons, if_neg hk, ih hnd.2]

/-! ## Lemmas about the presence registry -/

theorem nodup_keysOf_stepSocket (reg : Registry) (ev : SocketEvent)
    (hnd : (keysOf reg).Nodup) : (keysOf (stepSocket reg ev)).Nodup := by
  cases ev with
  | connect u s r => exact nodup_keysOf_mapSet reg u ⟨s, r⟩ hnd
  | disconnect u s => exact nodup_keysOf_mapDel reg u hnd

theorem nodup_keysOf_runSocket_aux (evs : List SocketEvent) (reg : Registry)
    (hnd : (keysOf reg).Nodup) : (keysOf (runSocket reg evs)).Nodup := by
  induction evs generalizing reg with
  | nil => exact hnd
  | cons ev rest ih =>
    exact ih (stepSocket reg ev) (nodup_keysOf_stepSocket reg ev hnd)

theorem emitToUser_eq_none {P : Type} (reg : Registry) (u : Nat) (e : String) (p : P)
    (hg : mapGet reg u = none) : emitToUser reg u e p = none := by
  simp [emitToUser, hg]

theorem emitToUser_eq_some {P : Type} (reg : Registry) (u : Nat) (e : String) (p : P)
    (t : PresenceEntry) (hg : mapGet reg u = some t) :
    emitToUser reg u e p = some (t.socketId, e, p) := by
  simp [emitToUser, hg]

/-- Collecting the targeted emissions of a per-recipient fan-out: the
recipients actually reached are exactly those present in the registry. -/
theorem emit_collect_map_fst {P : Type} (reg : Registry) (l : List Nat) (e : String)
    (pl : Nat → P) :
    ((l.filterMap (fun rid => (emitToUser reg rid e (pl rid)).map (fun d => (rid, d)))).map
        (fun d => d.1))
      = l.filter (fun rid => (mapGet reg rid).isSome) := by
  induction l with
  | nil => rfl
  | cons rid rest ih =>
    simp only [List.filterMap_cons, List.filter_cons]
    cases hg : mapGet reg rid with
    | none =>
      rw [emitToUser_eq_none reg rid e (pl rid) hg]
      simpa using ih
    | some t =>
      rw [emitToUser_eq_some reg rid e (pl rid) t hg]
      simpa using ih

/-! ## Lemmas about contact insertion -/

theorem mem_insertOrIgnorePair_self (cs : List (Nat × Nat)) (p : Nat × Nat) :
    p ∈ insertOrIgnorePair cs p := by
  by_cases h : p ∈ cs <;> simp [insertOrIgnorePair, h]

theorem mem_insertOrIgnorePair_of_mem (cs : List (Nat × Nat)) (p q : Nat × Nat)
    (h : q ∈ cs) : q ∈ insertOrIgnorePair cs p := by
  by_cases hp : p ∈ cs <;> simp [insertOrIgnorePair, hp, h]

theorem insertOrIgnorePair_eq_of_mem (cs : List (Nat × Nat)) (p : Nat × Nat)
    (h : p ∈ cs) : insertOrIgnorePair cs p = cs := by
  simp [insertOrIgnorePair, h]

/-- Unfolding of a successful POST /api/contacts/add (server.js:222-247). -/
theorem addContact_ok (st : ContactsState) (userId : Nat) (phone : String) (row : UserRow)
    (hph : ¬phone = "") (hfind : findUserByPhone st.users phone = some row)
    (hne : ¬row.id = userId) :
    addContact st userId phone =
      (AddContactResult.ok,
        { users := st.users,
          contacts :=
            insertOrIgnorePair (insertOrIgnorePair st.contacts (userId, row.id)) (row.id, userId),
          settingsKeys := ensureSettingsRow (ensureSettingsRow st.settingsKeys userId) row.id }) := by
  simp [addContact, hph, hfind, hne]

/-! ## Claim theorems -/

/-- Claim C1 (amended): the presence registry holds at most one entry per
user identifier at any instant, and a later socket connect for a user
already registered overwrites the earlier connection handle, after which a
relay push for that user reaches the latest connection; however, any
subsequent disconnect event for that user — including the earlier, stale
connection closing, since the disconnect handler deletes by user id only —
removes the entry entirely, after which relay pushes for that user reach no
connection at all. -/
theorem C1_presence_overwrite_and_stale_disconnect :
    (∀ evs : List SocketEvent, (keysOf (runSocket [] evs)).Nodup) ∧
    (∀ (reg : Registry) (u s : Nat) (r : Role),
      mapGet (stepSocket reg (SocketEvent.connect u s r)) u = some ⟨s, r⟩) ∧
    (∀ (reg : Registry) (u s1 s2 : Nat) (r1 r2 : Role) (e : String) (p : Nat),
      emitToUser
        (stepSocket (stepSocket reg (SocketEvent.connect u s1 r1)) (SocketEvent.connect u s2 r2))
        u e p = some (s2, e, p)) ∧
    (∀ (reg : Registry) (u sid : Nat) (e : String) (p : Nat),
      (keysOf reg).Nodup →
      emitToUser (stepSocket reg (SocketEvent.disconnect u sid)) u e p = none) := by
  refine ⟨?_, ?_, ?_, ?_⟩
  · intro evs
    exact nodup_keysOf_runSocket_aux evs [] (by simp [keysOf])
  · intro reg u s r
    exact mapGet_mapSet_self reg u ⟨s, r⟩
  · intro reg u s1 s2 r1 r2 e p
    simp [stepSocket, emitToUser, mapGet_mapSet_self]
  · intro reg u sid e p hnd
    simp [stepSocket, emitToUser, mapGet_mapDel_self reg u hnd]

/-- Witness for C1's amended theorem at a concrete registry. -/
theorem C1_presence_overwrite_and_stale_disconnect_witness :
    emitToUser (stepSocket [(1, ⟨10, Role.elderly⟩)] (SocketEvent.disconnect 1 10)) 1
      "message:new" (0 : Nat) = none :=
  C1_presence_overwrite_and_stale_disconnect.2.2.2 [(1, ⟨10, Role.elderly⟩)] 1 10
    "message:new" 0 (by decide)

/-- Counterexample to claim C1 as stated: user 1 connects on socket 10, then
reconnects on socket 20; when the stale socket 10 later disconnects, the
handler (server.js:441-444) deletes user 1's entry, so a subsequent relay
push reaches no connection — in particular it does not reach the latest
connection, socket 20. -/
theorem C1_stale_disconnect_counterexample :
    emitToUser (runSocket [] [SocketEvent.connect 1 10 Role.elderly,
        SocketEvent.connect 1 20 Role.elderly, SocketEvent.disconnect 1 10]) 1
      "message:new" (0 : Nat) = none ∧
    emitToUser (runSocket [] [SocketEvent.connect 1 10 Role.elderly,
        SocketEvent.connect 1 20 Role.elderly, SocketEvent.disconnect 1 10]) 1
      "message:new" (0 : Nat) ≠ some (20, "message:new", 0) := by
  refine ⟨by decide, by decide⟩

/-- Claim C3: an `emitToUser` call for a user absent from the presence
registry returns nothing (it is a total function, so it cannot throw),
performs no delivery, and changes no state; hence any sequence of later
actions — including a connect of that user — proceeds exactly as if the
call had never happened, so the missed event is never delivered. -/
theorem C3_emit_absent_noop (st : RelayState) (u : Nat) (e : String) (p : Nat)
    (h : mapGet st.reg u = none) :
    emitToUser st.reg u e p = none ∧
    stepAction st (Action.emit u e p) = st ∧
    (∀ later : List Action,
      runActions (stepAction st (Action.emit u e p)) later = runActions st later) := by
  have h1 : emitToUser st.reg u e p = (none : Option (Nat × String × Nat)) := by
    simp [emitToUser, h]
  have h2 : stepAction st (Action.emit u e p) = st := by
    simp [stepAction, h1]
  exact ⟨h1, h2, fun later => by rw [h2]⟩

/-- Witness for C3 at a concrete state: user 1 is absent while user 2 is
online; the emit for user 1 leaves the state untouched. -/
theorem C3_emit_absent_noop_witness :
    stepAction ⟨[(2, ⟨5, Role.family⟩)], []⟩ (Action.emit 1 "message:new" 7)
      = ⟨[(2, ⟨5, Role.family⟩)], []⟩ :=
  (C3_emit_absent_noop ⟨[(2, ⟨5, Role.family⟩)], []⟩ 1 "message:new" 7 (by decide)).2.1

/-- Claim C2 (amended): with an OTP row stored for the phone and the user row
present, verification succeeds exactly when the submitted code is an exact
match and `now ≤ expiry` (the code rejects only when `expires_at < now`, so
a code still verifies at the exact expiry instant); on success a session is
established, the OTP record is deleted, and an immediately repeated verify
with the same code fails with `otp_not_found`. -/
theorem C2_verify_success_iff (st : AuthState) (phone code : String) (now now2 : Int)
    (row : OtpRow) (u : UserRow)
    (hph : phone ≠ "") (hcd : code ≠ "")
    (hnd : (keysOf st.otps).Nodup)
    (hrow : mapGet st.otps phone = some row)
    (huser : findUserByPhone st.users phone = some u) :
    ((verifyOtp st phone code now).1 = VerifyResult.ok u ↔
      row.code = code ∧ now ≤ row.expires_at) ∧
    (row.code = code → now ≤ row.expires_at →
      (verifyOtp st phone code now).2.session = some u ∧
      mapGet (verifyOtp st phone code now).2.otps phone = none ∧
      (verifyOtp (verifyOtp st phone code now).2 phone code now2).1
        = VerifyResult.otp_not_found) := by
  have hguard : ¬(phone = "" ∨ code = "") := by
    rintro (h | h)
    exacts [hph h, hcd h]
  have hnone : mapGet (mapDel st.otps phone) phone = none :=
    mapGet_mapDel_self st.otps phone hnd
  constructor
  · constructor
    · intro hok
      by_cases hc : row.code = code
      · by_cases hexp : row.expires_at < now
        · exfalso
          simp [verifyOtp, hguard, hrow, hc, hexp] at hok
        · exact ⟨hc, not_lt.mp hexp⟩
      · exfalso
        simp [verifyOtp, hguard, hrow, hc] at hok
    · rintro ⟨hc, hle⟩
      have hexp : ¬row.expires_at < now := not_lt.mpr hle
      simp [verifyOtp, hguard, hrow, hc, hexp, huser]
  · intro hc hle
    have hexp : ¬row.expires_at < now := not_lt.mpr hle
    have hres : (verifyOtp st phone code now).2
        = ⟨mapDel st.otps phone, st.users, some u⟩ := by
      simp [verifyOtp, hguard, hrow, hc, hexp, huser]
    rw [hres]
    refine ⟨rfl, hnone, ?_⟩
    simp [verifyOtp, hguard, hnone]

/-- Witness for C2's amended theorem: a concrete verify before expiry
succeeds. -/
theorem C2_verify_success_iff_witness :
    (verifyOtp ⟨[("0812222222", ⟨"111111", 50⟩)],
        [⟨1, "A", "B", "0812222222", Role.elderly⟩], none⟩
      "0812222222" "111111" 10).1
      = VerifyResult.ok ⟨1, "A", "B", "0812222222", Role.elderly⟩ :=
  ((C2_verify_success_iff ⟨[("0812222222", ⟨"111111", 50⟩)],
      [⟨1, "A", "B", "0812222222", Role.elderly⟩], none⟩
      "0812222222" "111111" 10 20 ⟨"111111", 50⟩ ⟨1, "A", "B", "0812222222", Role.elderly⟩
      (by decide) (by decide) (by decide) (by decide) (by decide)).1).mpr (by decide)

/-- Counterexample to claim C2 as stated: at `now` exactly equal to the
stored expiry, verification succeeds (server.js:176 rejects only when
`expires_at < now`), although `now < expiry` is false — the claimed strict
bound does not hold on the code. -/
theorem C2_expiry_boundary_counterexample :
    (verifyOtp ⟨[("0811111111", ⟨"123456", 100⟩)],
        [⟨1, "A", "B", "0811111111", Role.elderly⟩], none⟩
      "0811111111" "123456" 100).1
      = VerifyResult.ok ⟨1, "A", "B", "0811111111", Role.elderly⟩ ∧
    ¬((100 : Int) < (100 : Int)) := by
  refine ⟨by decide, by decide⟩

/-- Claim C6: OTP issuance stores, for any phone, a 6-digit code (the numeric
value `100000 + rand` lies in 100000..999999 when `rand`, the value of
`Math.floor(Math.random() * 900000)`, is below 900000) with expiry exactly
5 minutes (300000 ms) after issuance, unconditionally overwriting any prior
row for that phone via `INSERT OR REPLACE` into a table keyed by phone, so at
most one code per phone is ever stored and a lookup returns only the newest. -/
theorem C6_otp_issuance (otps : List (String × OtpRow)) (phone : String) (rand : Nat)
    (now : Int) (hrand : rand < 900000) :
    (generateAndStoreOtp otps phone rand now).2 = toString (100000 + rand) ∧
    100000 ≤ 100000 + rand ∧ 100000 + rand ≤ 999999 ∧
    mapGet (generateAndStoreOtp otps phone rand now).1 phone
      = some ⟨toString (100000 + rand), now + 1000 * 60 * 5⟩ ∧
    ((keysOf otps).Nodup → (keysOf (generateAndStoreOtp otps phone rand now).1).Nodup) := by
  refine ⟨rfl, Nat.le_add_right _ _, by omega, ?_, ?_⟩
  · exact mapGet_mapSet_self otps phone ⟨toString (100000 + rand), now + 1000 * 60 * 5⟩
  · intro h
    exact nodup_keysOf_mapSet otps phone ⟨toString (100000 + rand), now + 1000 * 60 * 5⟩ h

/-- Witness for C6 at a concrete table that already holds a code for the
phone: the new row overwrites it and the key set stays duplicate-free. -/
theorem C6_otp_issuance_witness :
    mapGet (generateAndStoreOtp [("0811111111", ⟨"999999", 5⟩)] "0811111111" 0 0).1
        "0811111111"
      = some ⟨toString (100000 + 0), 0 + 1000 * 60 * 5⟩ ∧
    (keysOf (generateAndStoreOtp [("0811111111", ⟨"999999", 5⟩)] "0811111111" 0 0).1).Nodup :=
  ⟨(C6_otp_issuance [("0811111111", ⟨"999999", 5⟩)] "0811111111" 0 0 (by decide)).2.2.2.1,
   (C6_otp_issuance [("0811111111", ⟨"999999", 5⟩)] "0811111111" 0 0 (by decide)).2.2.2.2
     (by decide)⟩

/-- Claim C7: a failed OTP verification — code mismatch, or an exact match
whose stored expiry is already in the past — returns the matching error
(`otp_invalid` resp. `otp_expired`) and returns the state unchanged: the OTP
record is left intact and the session is untouched. -/
theorem C7_failed_verify_leaves_state (st : AuthState) (phone code : String) (now : Int)
    (row : OtpRow) (hph : phone ≠ "") (hcd : code ≠ "")
    (hrow : mapGet st.otps phone = some row) :
    (row.code ≠ code → verifyOtp st phone code now = (VerifyResult.otp_invalid, st)) ∧
    (row.code = code → row.expires_at < now →
      verifyOtp st phone code now = (VerifyResult.otp_expired, st)) := by
  have hguard : ¬(phone = "" ∨ code = "") := by
    rintro (h | h)
    exacts [hph h, hcd h]
  constructor
  · intro hc
    simp [verifyOtp, hguard, hrow, hc]
  · intro hc hexp
    simp [verifyOtp, hguard, hrow, hc, hexp]

/-- Witness for C7: a concrete expired-code verification fails with
`otp_expired` and leaves the state — hence the record and the absent
session — exactly as it was. -/
theorem C7_failed_verify_leaves_state_witness :
    verifyOtp ⟨[("0813333333", ⟨"123456", 10⟩)], [], none⟩ "0813333333" "123456" 99
      = (VerifyResult.otp_expired, ⟨[("0813333333", ⟨"123456", 10⟩)], [], none⟩) :=
  (C7_failed_verify_leaves_state ⟨[("0813333333", ⟨"123456", 10⟩)], [], none⟩
    "0813333333" "123456" 99 ⟨"123456", 10⟩ (by decide) (by decide) (by decide)).2
    (by decide) (by decide)

/-- Claim C4: when an elderly-role user logs an exercise with stored settings
flag `family_notify_parent_done = 1`, the relay calls issued are exactly one
`exercise:completed` push per family-role contact, each carrying the exercise
type, the (floored) duration and the fatigue level (after the code's
`|| null` coercion); with the flag at 0, no push is issued. -/
theorem C4_exercise_family_fanout (userId : Nat) (body : ExerciseBody)
    (contacts : List (Nat × Role)) :
    exercisePushes userId Role.elderly body (SettingsRead.row 1) contacts
      = (contacts.filter (fun c => c.2 = Role.family)).map
          (fun c => (c.1, "exercise:completed", exercisePayload userId body)) ∧
    (exercisePushes userId Role.elderly body (SettingsRead.row 1) contacts).length
      = (contacts.filter (fun c => c.2 = Role.family)).length ∧
    (exercisePayload userId body).exerciseType = body.exerciseType ∧
    (exercisePayload userId body).duration = ⌊body.duration⌋ ∧
    (exercisePayload userId body).fatigueLevel = jsOrNullInt body.fatigueLevel ∧
    exercisePushes userId Role.elderly body (SettingsRead.row 0) contacts = [] := by
  refine ⟨?_, ?_, rfl, rfl, rfl, ?_⟩
  · simp [exercisePushes, notifyEnabled, notifyFamilyOfExercise]
  · simp [exercisePushes, notifyEnabled, notifyFamilyOfExercise]
  · simp [exercisePushes, notifyEnabled]

/-- Claim C5: the group branch of a message send to a sender with N contact
edges inserts exactly N message rows, every one with the group flag set, and
performs at most N relay emissions; the recipients actually reached are
exactly those contacts currently present in the presence registry. -/
theorem C5_group_message_fanout (reg : Registry) (contacts : List (Nat × Nat))
    (fromUserId : Nat) (content : String) :
    (postGroupMessage reg contacts fromUserId content).1.length
      = (contactIdsOf contacts fromUserId).length ∧
    (postGroupMessage reg contacts fromUserId content).1.all (fun r => r.is_group) = true ∧
    (postGroupMessage reg contacts fromUserId content).2.map (fun d => d.1)
      = (contactIdsOf contacts fromUserId).filter (fun rid => (mapGet reg rid).isSome) ∧
    (postGroupMessage reg contacts fromUserId content).2.length
      ≤ (contactIdsOf contacts fromUserId).length := by
  have hmap : (postGroupMessage reg contacts fromUserId content).2.map (fun d => d.1)
      = (contactIdsOf contacts fromUserId).filter (fun rid => (mapGet reg rid).isSome) :=
    emit_collect_map_fst reg (contactIdsOf contacts fromUserId) "message:new" _
  refine ⟨?_, ?_, hmap, ?_⟩
  · simp [postGroupMessage]
  · simp [postGroupMessage, List.all_eq_true]
  · calc (postGroupMessage reg contacts fromUserId content).2.length
        = ((postGroupMessage reg contacts fromUserId content).2.map (fun d => d.1)).length :=
          (List.length_map _ _).symm
      _ = ((contactIdsOf contacts fromUserId).filter
            (fun rid => (mapGet reg rid).isSome)).length := by rw [hmap]
      _ ≤ (contactIdsOf contacts fromUserId).length := List.length_filter_le _ _

/-- Claim C8: if the settings read during the exercise fan-out fails or finds
no row, the fan-out behaves as if notifications were disabled — no relay
push is issued — while the request still answers ok with the inserted
record's id. -/
theorem C8_settings_read_fails_open (userId : Nat) (role : Role) (body : ExerciseBody)
    (contacts : List (Nat × Role)) (lastID : Nat) (s : SettingsRead)
    (hs : s = SettingsRead.err ∨ s = SettingsRead.missing)
    (hty : body.exerciseType ≠ "") :
    exercisePushes userId role body s contacts = [] ∧
    postExercise userId role body s contacts lastID
      = some ⟨lastID, exerciseRow userId body, []⟩ := by
  have hne : notifyEnabled s = false := by
    rcases hs with rfl | rfl <;> rfl
  have h1 : exercisePushes userId role body s contacts = [] := by
    simp [exercisePushes, hne]
  refine ⟨h1, ?_⟩
  simp [postExercise, hty, h1]

/-- Witness for C8: a concrete elderly exercise log whose settings read
errors still answers ok with the record id and issues no push. -/
theorem C8_settings_read_fails_open_witness :
    postExercise 1 Role.elderly ⟨"walk", 30, none, none⟩ SettingsRead.err
        [(2, Role.family)] 5
      = some ⟨5, exerciseRow 1 ⟨"walk", 30, none, none⟩, []⟩ :=
  (C8_settings_read_fails_open 1 Role.elderly ⟨"walk", 30, none, none⟩
    [(2, Role.family)] 5 SettingsRead.err (Or.inl rfl) (by decide)).2

/-- Claim C9: the stored `duration_min` equals `max 0 ⌊duration⌋` and is
non-negative, while the notification payload carries `⌊duration⌋` unclamped;
for a negative input duration the pushed duration is negative and disagrees
with the stored value, and a fatigue level of 0 is coerced to null both in
the stored row and in the payload. -/
theorem C9_duration_clamp_mismatch (userId : Nat) (body : ExerciseBody) :
    (exerciseRow userId body).duration_min = max 0 ⌊body.duration⌋ ∧
    0 ≤ (exerciseRow userId body).duration_min ∧
    (exercisePayload userId body).duration = ⌊body.duration⌋ ∧
    (body.duration < 0 →
      (exercisePayload userId body).duration < 0 ∧
      (exercisePayload userId body).duration ≠ (exerciseRow userId body).duration_min) ∧
    (body.fatigueLevel = some 0 →
      (exerciseRow userId body).fatigue_level = none ∧
      (exercisePayload userId body).fatigueLevel = none) := by
  refine ⟨rfl, le_max_left _ _, rfl, ?_, ?_⟩
  · intro hneg
    have hf : ⌊body.duration⌋ < 0 := by
      rw [show (0 : Int) = (0 : Int) from rfl]
      exact Int.floor_lt.mpr (by exact_mod_cast hneg)
    have hmax : max 0 ⌊body.duration⌋ = 0 := max_eq_left (le_of_lt hf)
    refine ⟨hf, ?_⟩
    simp only [exercisePayload, exerciseRow, hmax]
    omega
  · intro hfz
    simp [exerciseRow, exercisePayload, jsOrNullInt, hfz]

/-- Witness for C9: a concrete exercise log with duration -1 and fatigue 0;
the payload carries -1 while the stored row holds 0 and a null fatigue. -/
theorem C9_duration_clamp_mismatch_witness :
    ((exercisePayload 1 ⟨"walk", -1, some 0, none⟩).duration < 0 ∧
      (exercisePayload 1 ⟨"walk", -1, some 0, none⟩).duration
        ≠ (exerciseRow 1 ⟨"walk", -1, some 0, none⟩).duration_min) ∧
    (exerciseRow 1 ⟨"walk", -1, some 0, none⟩).fatigue_level = none :=
  ⟨(C9_duration_clamp_mismatch 1 ⟨"walk", -1, some 0, none⟩).2.2.2.1 (by norm_num),
   ((C9_duration_clamp_mismatch 1 ⟨"walk", -1, some 0, none⟩).2.2.2.2 rfl).1⟩

/-- Claim C10: adding a contact is idempotent — for a pair of distinct
existing users, the first call answers ok and leaves both directed edge rows
present, and a second call with the same phone answers ok again and leaves
the contacts table exactly as the first call left it. -/
theorem C10_addContact_idempotent (st : ContactsState) (userId : Nat) (phone : String)
    (row : UserRow) (hph : phone ≠ "")
    (hfind : findUserByPhone st.users phone = some row)
    (hne : row.id ≠ userId) :
    (addContact st userId phone).1 = AddContactResult.ok ∧
    (userId, row.id) ∈ (addContact st userId phone).2.contacts ∧
    (row.id, userId) ∈ (addContact st userId phone).2.contacts ∧
    (addContact (addContact st userId phone).2 userId phone).1 = AddContactResult.ok ∧
    (addContact (addContact st userId phone).2 userId phone).2.contacts
      = (addContact st userId phone).2.contacts := by
  have h1 := addContact_ok st userId phone row hph hfind hne
  have hmem1 : (userId, row.id) ∈ (addContact st userId phone).2.contacts := by
    rw [h1]
    exact mem_insertOrIgnorePair_of_mem _ _ _ (mem_insertOrIgnorePair_self _ _)
  have hmem2 : (row.id, userId) ∈ (addContact st userId phone).2.contacts := by
    rw [h1]
    exact mem_insertOrIgnorePair_self _ _
  have hfind2 : findUserByPhone (addContact st userId phone).2.users phone = some row := by
    rw [h1]
    exact hfind
  have h2 := addContact_ok (addContact st userId phone).2 userId phone row hph hfind2 hne
  refine ⟨by rw [h1], hmem1, hmem2, by rw [h2], ?_⟩
  rw [h2]
  show insertOrIgnorePair (insertOrIgnorePair (addContact st userId phone).2.contacts
      (userId, row.id)) (row.id, userId) = (addContact st userId phone).2.contacts
  rw [insertOrIgnorePair_eq_of_mem _ _ hmem1, insertOrIgnorePair_eq_of_mem _ _ hmem2]

/-- Witness for C10: two distinct concrete users; adding the same contact
twice leaves the contacts table of the first addition unchanged. -/
theorem C10_addContact_idempotent_witness :
    (addContact (addContact ⟨[⟨1, "A", "B", "0811111111", Role.elderly⟩,
        ⟨2, "C", "D", "0822222222", Role.family⟩], [], []⟩ 1 "0822222222").2
      1 "0822222222").2.contacts
      = (addContact ⟨[⟨1, "A", "B", "0811111111", Role.elderly⟩,
          ⟨2, "C", "D", "0822222222", Role.family⟩], [], []⟩ 1 "0822222222").2.contacts :=
  (C10_addContact_idempotent ⟨[⟨1, "A", "B", "0811111111", Role.elderly⟩,
      ⟨2, "C", "D", "0822222222", Role.family⟩], [], []⟩ 1 "0822222222"
    ⟨2, "C", "D", "0822222222", Role.family⟩ (by decide) (by decide) (by decide)).2.2.2.2

end CareWell
